import Mathlib

/-!
Verification development for the contact-address-book repository
(src/contact_manager.py).  The Python source is shallowly embedded:
pure functions become Lean functions, interactive input() calls become
an explicit list of input strings consumed in order, and the persisted
JSON file becomes an inductive file-state value.  Python str values are
modelled as Lean String; the ASCII-only caveats of each helper are
noted at its definition.
-/

/-- Record type embedding class Contact (src lines 10-39).  The Python
class defines no eq method, so two Contact objects compare by object
identity; the field oid models that identity (it is not part of the
four data fields and is never serialized, mirroring how __dict__ holds
only the four string attributes). -/
structure Contact where
  oid : Nat
  first_name : String
  last_name : String
  phone_number : String
  email : String
deriving DecidableEq

/-- Data fields of a Contact, without the identity tag. -/
def contactFields (c : Contact) : String × String × String × String :=
  (c.first_name, c.last_name, c.phone_number, c.email)

/-- ASCII letter test, the character class A-Za-z of the name regex. -/
def isAsciiLetter (c : Char) : Bool :=
  ('A' ≤ c && c ≤ 'Z') || ('a' ≤ c && c ≤ 'z')

/-- Whitespace as recognized by CPython for the regex class backslash-s
on str patterns and by str.strip(): the Py_UNICODE_ISSPACE set. -/
def isPythonSpace (c : Char) : Bool :=
  let n := c.toNat
  (9 ≤ n && n ≤ 13) || n == 32 || (28 ≤ n && n ≤ 31) || n == 0x85 ||
    n == 0xA0 || n == 0x1680 || (0x2000 ≤ n && n ≤ 0x200A) ||
    n == 0x2028 || n == 0x2029 || n == 0x202F || n == 0x205F || n == 0x3000

/-- Word character for the regex class backslash-w, modelled over the
ASCII range (Python additionally matches non-ASCII alphanumerics; the
claims only exercise ASCII data). -/
def isWordChar (c : Char) : Bool :=
  c.isAlphanum || c == '_'

/-- Python str.lower(), modelled over the ASCII range (Char.toLower
lowers exactly A-Z; Python additionally lowers non-ASCII letters, which
the claims do not exercise). -/
def pyLower (s : String) : String :=
  String.mk (s.toList.map Char.toLower)

/-- Python str.strip() with no argument: remove leading and trailing
whitespace characters. -/
def pyStrip (s : String) : String :=
  String.mk (((s.toList.dropWhile isPythonSpace).reverse.dropWhile isPythonSpace).reverse)

/-- Contiguous-sublist test on character lists, the meaning of the
Python substring operator for strings. -/
def listContains : List Char → List Char → Bool
  | needle, [] => needle.isEmpty
  | needle, c :: rest => needle.isPrefixOf (c :: rest) || listContains needle rest

/-- Python substring operator: needle in hay. -/
def pySubstr (needle hay : String) : Bool :=
  listContains needle.toList hay.toList

/-- Value of a nonempty all-digit character list, else none. -/
def digitsVal (ds : List Char) : Option Nat :=
  if ds.isEmpty then none
  else if ds.all Char.isDigit then
    some (ds.foldl (fun a c => a * 10 + (c.toNat - 48)) 0)
  else none

/-- Python int(s) on a string: strip whitespace, optional sign, then
decimal digits; none models the ValueError raised otherwise.  (Python
additionally allows underscore digit separators and non-ASCII digits;
the claims do not exercise those.) -/
def pyParseInt (s : String) : Option Int :=
  match (pyStrip s).toList with
  | '+' :: ds => (digitsVal ds).map Int.ofNat
  | '-' :: ds => (digitsVal ds).map (fun n => -(Int.ofNat n))
  | ds => (digitsVal ds).map Int.ofNat

/-- Anchored regex match: bool(re.match(r"^body$", s)) for a body whose
language is decided by the given predicate on character lists.  The
dollar anchor in Python matches at the end of the string or just
before a newline that ends the string, hence the second disjunct. -/
def reFullMatch (body : List Char → Bool) (s : String) : Bool :=
  let cs := s.toList
  body cs ||
    (match cs.getLast? with
     | some c => c == '\n' && body cs.dropLast
     | none => false)

/-- Character admitted by the name regex class [A-Za-z backslash-s]. -/
def nameChar (c : Char) : Bool :=
  isAsciiLetter c || isPythonSpace c

/-- Body language of the name regex [A-Za-z backslash-s]+ . -/
def nameBody (cs : List Char) : Bool :=
  !cs.isEmpty && cs.all nameChar

/-- Embeds ContactManager._is_valid_name (src lines 138-147):
bool(re.match(r"^[A-Za-z backslash-s]+$", name)). -/
def is_valid_name (name : String) : Bool :=
  reFullMatch nameBody name

/-- Body language of the phone regex backslash-plus-opt [0-9]* . -/
def phoneBody (cs : List Char) : Bool :=
  match cs with
  | '+' :: ds => ds.all Char.isDigit
  | ds => ds.all Char.isDigit

/-- Embeds ContactManager._is_valid_phone (src lines 150-160):
bool(re.match(r"^ plus-opt [0-9]*$", phone)). -/
def is_valid_phone (phone : String) : Bool :=
  reFullMatch phoneBody phone

/-- Character of the regex class [backslash-w . -] used in the email
local and domain parts. -/
def localChar (c : Char) : Bool :=
  isWordChar c || c == '.' || c == '-'

/-- Language of the regex fragment [class]+ . [word]+ : some split at a
literal dot with a nonempty class part before and a nonempty word part
after. -/
def emailTailBody (ds : List Char) : Bool :=
  (List.range ds.length).any (fun i =>
    let b := ds.take i
    match ds.drop i with
    | '.' :: cw => !b.isEmpty && b.all localChar && !cw.isEmpty && cw.all isWordChar
    | _ => false)

/-- Body language of the email regex [class]+ at-sign [class]+ . [word]+ :
some split at a literal at-sign with a nonempty class part before and a
matching tail after. -/
def emailBody (cs : List Char) : Bool :=
  (List.range cs.length).any (fun i =>
    let a := cs.take i
    match cs.drop i with
    | '@' :: d => !a.isEmpty && a.all localChar && emailTailBody d
    | _ => false)

/-- Embeds ContactManager._is_valid_email (src lines 162-171). -/
def is_valid_email (email : String) : Bool :=
  reFullMatch emailBody email

/-- Embeds ContactManager._is_duplicate (src lines 173-185): some
stored contact equal to the candidate in all four (string-compared)
fields. -/
def is_duplicate (contacts : List Contact) (first_name last_name phone_number email : String) : Bool :=
  contacts.any (fun c =>
    c.first_name == first_name && c.last_name == last_name &&
      c.phone_number == phone_number && c.email == email)

/-- Parsed JSON values, restricted to the fragment the claims exercise:
string leaves, arrays, and objects whose values are strings.  The
repository itself writes only arrays of four-string-field objects, so
this fragment covers every file save_contacts can produce, plus enough
foreign shapes to exercise the load error paths. -/
inductive Json where
  | str (s : String)
  | arr (items : List Json)
  | obj (kvs : List (String × String))

/-- State of the persisted contacts file: absent, present but rejected
by the JSON parser (json.JSONDecodeError), or present with the given
parsed value. -/
inductive FileState where
  | missing
  | corrupt
  | parsed (v : Json)

/-- Outcome of load_contacts: a store (with a flag recording whether
the corrupt-file warning was printed), or an uncaught exception that is
fatal to the process. -/
inductive LoadResult where
  | ok (warned : Bool) (contacts : List Contact)
  | fatal
deriving DecidableEq

/-- Python iteration over a parsed JSON value, as performed by the list
comprehension in load_contacts: an array yields its items, a string
yields its one-character substrings, an object yields its keys. -/
def pyIterItems : Json → List Json
  | .arr items => items
  | .str s => s.toList.map (fun c => Json.str (String.mk [c]))
  | .obj kvs => kvs.map (fun kv => Json.str kv.1)

/-- One step of the comprehension Contact(**data): succeeds exactly
when data is an object whose keys are precisely the four constructor
parameter names; anything else raises TypeError (modelled as none).
The oid argument supplies the fresh identity of the new object. -/
def decodeItem (oid : Nat) : Json → Option Contact
  | .obj kvs =>
    if kvs.length == 4 then
      match kvs.lookup "first_name", kvs.lookup "last_name",
          kvs.lookup "phone_number", kvs.lookup "email" with
      | some f, some l, some p, some e => some ⟨oid, f, l, p, e⟩
      | _, _, _, _ => none
    else none
  | _ => none

/-- Decode a list of items into contacts, numbering the fresh object
identities from the given base. -/
def decodeList (oid : Nat) : List Json → Option (List Contact)
  | [] => some []
  | j :: rest =>
    match decodeItem oid j with
    | some c => (decodeList (oid + 1) rest).map (fun cs => c :: cs)
    | none => none

/-- Embeds ContactManager.load_contacts (src lines 59-71).  Only
FileNotFoundError and json.JSONDecodeError are caught; a TypeError
raised by Contact(**data) on well-formed JSON of the wrong shape
escapes and is fatal.  The function only reads the file: no FileState
is produced, so a failed load leaves the file as it was. -/
def load_contacts : FileState → LoadResult
  | .missing => .ok false []
  | .corrupt => .ok true []
  | .parsed v =>
    match decodeList 0 (pyIterItems v) with
    | some cs => .ok false cs
    | none => .fatal

/-- Serialization of one contact, contact.__dict__ in save_contacts:
an object of the four string attributes in definition order.  The
object identity is not an attribute and is not written. -/
def encodeContact (c : Contact) : Json :=
  .obj [("first_name", c.first_name), ("last_name", c.last_name),
        ("phone_number", c.phone_number), ("email", c.email)]

/-- Embeds ContactManager.save_contacts (src lines 73-78): the file is
overwritten with the JSON array of the contacts' attribute objects. -/
def save_contacts (contacts : List Contact) : FileState :=
  .parsed (.arr (contacts.map encodeContact))

/-- Normalization applied to every yes-no answer in the source:
input().strip().lower(). -/
def normAns (s : String) : String :=
  pyLower (pyStrip s)

/-- Embeds ContactManager.get_valid_input (src lines 80-89): consume
stripped inputs until one passes the validator; none models an input
stream that is exhausted while the loop is still prompting. -/
def get_valid_input (inputs : List String) (validation_func : String → Bool) :
    Option (String × List String) :=
  match inputs with
  | [] => none
  | i :: rest =>
    let value := pyStrip i
    if validation_func value then some (value, rest)
    else get_valid_input rest validation_func

/-- Field resolution at the top of add_contact (src lines 120-124): a
supplied (non-None) argument is taken verbatim with no validation and
consumes no input; an absent argument is obtained interactively. -/
def resolveField (arg : Option String) (inputs : List String)
    (validation_func : String → Bool) : Option (String × List String) :=
  match arg with
  | some s => some (s, inputs)
  | none => get_valid_input inputs validation_func

/-- Embeds ContactManager.add_contact (src lines 91-136).  The four
fields are resolved in source order against the single shared input
stream, then the duplicate gate consumes one answer from the same
stream when it fires; none models an exhausted input stream.  The oid
argument is the identity of the freshly constructed Contact. -/
def add_contact (contacts : List Contact)
    (first_name last_name phone_number email : Option String)
    (inputs : List String) (oid : Nat) : Option (List Contact) :=
  (resolveField first_name inputs is_valid_name).bind fun fr =>
  (resolveField last_name fr.2 is_valid_name).bind fun lr =>
  (resolveField phone_number lr.2 is_valid_phone).bind fun pr =>
  (resolveField email pr.2 is_valid_email).bind fun er =>
  if is_duplicate contacts fr.1 lr.1 pr.1 er.1 then
    match er.2 with
    | [] => none
    | ans :: _ =>
      if normAns ans == "y" then
        some (contacts ++ [⟨oid, fr.1, lr.1, pr.1, er.1⟩])
      else some contacts
  else some (contacts ++ [⟨oid, fr.1, lr.1, pr.1, er.1⟩])

/-- Embeds the nested helper get_new_value of modify_contact (src lines
245-277): a stripped empty input keeps the current value, an invalid
input re-prompts, a valid input replaces the value; none models an
exhausted input stream. -/
def get_new_value (inputs : List String) (validation_func : String → Bool)
    (current_value : String) : Option (String × List String) :=
  match inputs with
  | [] => none
  | i :: rest =>
    let new_value := pyStrip i
    if new_value == "" then some (current_value, rest)
    else if validation_func new_value then some (new_value, rest)
    else get_new_value rest validation_func current_value

/-- Field assembly of modify_contact (src lines 279-289): the four
updated-or-kept values obtained by get_new_value in source order from
the shared input stream, packaged as the candidate contact that keeps
the identity of the selected one. -/
def modify_new_fields (sel : Contact) (inputs : List String) :
    Option (Contact × List String) :=
  (get_new_value inputs is_valid_name sel.first_name).bind fun fr =>
  (get_new_value fr.2 is_valid_name sel.last_name).bind fun lr =>
  (get_new_value lr.2 is_valid_phone sel.phone_number).bind fun pr =>
  (get_new_value pr.2 is_valid_email sel.email).bind fun er =>
  some (⟨sel.oid, fr.1, lr.1, pr.1, er.1⟩, er.2)

/-- Embeds the commit phase of modify_contact (src lines 243 and
291-301), given the already assembled candidate fields.  The index is
contacts.index(contact): the first position whose element compares
equal to the selected one, which under the default identity equality
is the selected object's own position.  The duplicate check runs over
the whole store.  The first component records whether the override
decision was demanded; the second the resulting store (writes at the
computed index, in place, keeping the object identity). -/
def modify_apply (contacts : List Contact) (sel : Contact)
    (first_name last_name phone_number email : String) (ans : String) :
    Bool × List Contact :=
  let index := contacts.findIdx (fun c => c.oid == sel.oid)
  let updated := contacts.set index ⟨sel.oid, first_name, last_name, phone_number, email⟩
  if is_duplicate contacts first_name last_name phone_number email then
    if normAns ans == "y" then (true, updated) else (true, contacts)
  else (false, updated)

/-- Outcome of selecting a contact from search results. -/
inductive SelectOutcome where
  | nothingToSelect
  | selected (c : Contact)
  | pending
deriving DecidableEq

/-- Embeds the retry loop of _select_contact_from_results (src lines
316-324): parse each input with int(); a parse failure or an index
outside 0 <= choice < len(results) re-prompts; pending models an
exhausted input stream. -/
def select_loop (results : List Contact) (inputs : List String) : SelectOutcome :=
  match inputs with
  | [] => .pending
  | i :: rest =>
    match pyParseInt i with
    | none => select_loop results rest
    | some k =>
      let choice := k - 1
      if 0 ≤ choice then
        match results.get? choice.toNat with
        | some c => .selected c
        | none => select_loop results rest
      else select_loop results rest

/-- Embeds selection from search results as exercised by modify_contact
and delete_contact: the empty case embeds the guard at src lines
229/305 and 351/367 (the callers print a no-contacts message and never
invoke the helper on an empty list); a single result is returned
directly (src line 326); multiple results enter the index loop (src
lines 312-324). -/
def select_from_search (results : List Contact) (inputs : List String) : SelectOutcome :=
  match results with
  | [] => .nothingToSelect
  | [c] => .selected c
  | _ => select_loop results inputs

/-- Embeds the commit phase of delete_contact (src lines 359-366):
on a confirming answer the store removes the first element comparing
equal to the selected contact (identity equality, so the selected
object itself); any other answer leaves the store unchanged. -/
def delete_apply (contacts : List Contact) (sel : Contact) (ans : String) :
    List Contact :=
  if normAns ans == "y" then contacts.eraseP (fun c => c.oid == sel.oid)
  else contacts

/-- Embeds ContactManager.search_contact (src lines 399-403): the query
is lowercased once, then tested as a substring of the lowercased first
name, lowercased last name, raw phone number, and lowercased email. -/
def search_contact (contacts : List Contact) (query : String) : List Contact :=
  let q := pyLower query
  contacts.filter (fun c =>
    pySubstr q (pyLower c.first_name) || pySubstr q (pyLower c.last_name) ||
      pySubstr q c.phone_number || pySubstr q (pyLower c.email))

/-- Search predicate written from the claim C1 wording, for comparison
with search_contact: the case-insensitive query is a substring of first
name, last name, or email, OR the query is an exact-case (not
case-normalized) substring of the raw phone number. -/
def spec_search_match (query : String) (c : Contact) : Bool :=
  pySubstr (pyLower query) (pyLower c.first_name) ||
    pySubstr (pyLower query) (pyLower c.last_name) ||
    pySubstr (pyLower query) (pyLower c.email) ||
    pySubstr query c.phone_number

/-- Name validator written from the claim C6 wording, for comparison
with is_valid_name: non-empty and only ASCII letters and the space
character (no other whitespace). -/
def spec_valid_name (s : String) : Bool :=
  !s.toList.isEmpty && s.toList.all (fun c => isAsciiLetter c || c == ' ')

/-- Duplicate check written from the claim C2 wording, for comparison
with is_duplicate: the exact four-field match run against the rest of
the store, excluding the record being modified. -/
def is_duplicate_excluding (contacts : List Contact) (sel : Contact)
    (first_name last_name phone_number email : String) : Bool :=
  is_duplicate (contacts.filter (fun c => !(c.oid == sel.oid)))
    first_name last_name phone_number email

/-- Renumbering of object identities performed by a reload: each
contact rebuilt by load_contacts carries a fresh identity, numbered
here from the given base. -/
def renumber : Nat → List Contact → List Contact
  | _, [] => []
  | n, c :: rest =>
    ⟨n, c.first_name, c.last_name, c.phone_number, c.email⟩ :: renumber (n + 1) rest

theorem listContains_nil (l : List Char) : listContains [] l = true := by
  cases l <;> simp [listContains, List.isPrefixOf]

theorem pySubstr_nil (s : String) : pySubstr "" s = true :=
  listContains_nil s.toList

/-- Claim C1, counterexample: with a stored record whose phone number
contains the exact-case uppercase letter A and whose other fields do
not contain a, the claim predicate (exact-case substring match on the
phone) selects the record, but search_contact lowercases the query
before the phone comparison and returns the empty list. -/
theorem search_phone_case_counterexample :
    search_contact [⟨0, "B", "B", "A", "b@b.b"⟩] "A" ≠
      List.filter (fun c => spec_search_match "A" c) [⟨0, "B", "B", "A", "b@b.b"⟩] := by
  decide

/-- Claim C1, amended: search returns exactly the filter of the store,
in original order, by the predicate in which the LOWERCASED query is
tested as a substring of the lowercased first name, lowercased last
name, raw (unlowercased) phone number, or lowercased email; the empty
query returns every record. -/
theorem search_contact_characterization (contacts : List Contact) (query : String) :
    search_contact contacts query =
      contacts.filter (fun c =>
        pySubstr (pyLower query) (pyLower c.first_name) ||
          pySubstr (pyLower query) (pyLower c.last_name) ||
          pySubstr (pyLower query) c.phone_number ||
          pySubstr (pyLower query) (pyLower c.email)) ∧
    (search_contact contacts query).Sublist contacts ∧
    search_contact contacts "" = contacts := by
  refine ⟨rfl, List.filter_sublist _, ?_⟩
  have h0 : pyLower "" = "" := rfl
  simp [search_contact, h0, pySubstr_nil]

/-- Newline collapse for the name regex: because the newline character
is itself in the whitespace class, the dollar-anchor branch of the
match adds no strings to the language. -/
theorem nameBody_newline_collapse (cs : List Char) :
    (nameBody cs ||
      (match cs.getLast? with
       | some c => c == '\n' && nameBody cs.dropLast
       | none => false)) = nameBody cs := by
  induction cs using List.reverseRecOn with
  | nil => rfl
  | append_singleton xs x _ =>
    rw [List.getLast?_concat, List.dropLast_concat]
    by_cases hx : x = '\n'
    · subst hx
      cases hnb : nameBody xs
      · simp
      · have hall : xs.all nameChar = true := by
          rw [nameBody, Bool.and_eq_true] at hnb
          exact hnb.2
        have : nameBody (xs ++ ['\n']) = true := by
          simp [nameBody, List.all_append, hall]
          decide
        simp [this]
    · have : (x == '\n') = false := beq_eq_false_iff_ne.mpr hx
      simp [this]

/-- Claim C6, counterexample: the tab character is accepted by the
implemented name validator (whose regex class is the full whitespace
class), but rejected by the claim regex that allows only the space
character. -/
theorem valid_name_whitespace_counterexample :
    is_valid_name "\t" = true ∧ spec_valid_name "\t" = false := by
  decide

/-- Claim C6, amended: the name validator returns true if and only if
the string is non-empty and consists only of ASCII letters and
whitespace characters (the regex class is backslash-s: space, tab,
newline, carriage return, form feed, vertical tab and the other Python
whitespace characters), not space alone. -/
theorem is_valid_name_characterization (s : String) :
    is_valid_name s =
      (!s.toList.isEmpty && s.toList.all (fun c => isAsciiLetter c || isPythonSpace c)) :=
  nameBody_newline_collapse s.toList

/-- Claim C2, counterexample: on a one-record store, a modify that
keeps every field of the target produces a candidate equal to no record
other than the target, yet the duplicate check (which runs over the
whole store, target included) fires and the override decision is
demanded; with a non-confirming answer the modification is cancelled.
The claim-side check that excludes the record being modified reports no
duplicate here. -/
theorem modify_duplicate_self_counterexample :
    is_duplicate [⟨0, "John", "Doe", "123", "j@x.co"⟩] "John" "Doe" "123" "j@x.co" = true ∧
    is_duplicate_excluding [⟨0, "John", "Doe", "123", "j@x.co"⟩]
      ⟨0, "John", "Doe", "123", "j@x.co"⟩ "John" "Doe" "123" "j@x.co" = false ∧
    modify_apply [⟨0, "John", "Doe", "123", "j@x.co"⟩] ⟨0, "John", "Doe", "123", "j@x.co"⟩
      "John" "Doe" "123" "j@x.co" "n" = (true, [⟨0, "John", "Doe", "123", "j@x.co"⟩]) := by
  decide

/-- Claim C2, amended: the duplicate check in modify runs against the
entire store, the record being modified included; therefore a modify
whose candidate keeps every field of a selected record that is in the
store always demands an override decision, and with a non-confirming
answer the store is left unchanged. -/
theorem modify_duplicate_full_store (contacts : List Contact) (sel : Contact) (ans : String)
    (h : sel ∈ contacts) :
    (modify_apply contacts sel sel.first_name sel.last_name sel.phone_number sel.email ans).1 =
        true ∧
    (normAns ans ≠ "y" →
      (modify_apply contacts sel sel.first_name sel.last_name sel.phone_number sel.email
          ans).2 = contacts) := by
  have hdup : is_duplicate contacts sel.first_name sel.last_name sel.phone_number sel.email
      = true := by
    refine List.any_eq_true.mpr ⟨sel, h, ?_⟩
    simp
  constructor
  · by_cases hy : normAns ans == "y" <;> simp [modify_apply, hdup, hy]
  · intro hne
    have hy : (normAns ans == "y") = false := beq_eq_false_iff_ne.mpr hne
    simp [modify_apply, hdup, hy]

/-- Witness for the amended claim C2 at a concrete one-record store. -/
theorem modify_duplicate_full_store_witness :
    (modify_apply [⟨0, "Jane", "Roe", "555", "jane@x.com"⟩]
        ⟨0, "Jane", "Roe", "555", "jane@x.com"⟩ "Jane" "Roe" "555" "jane@x.com" "n").1 = true ∧
    (modify_apply [⟨0, "Jane", "Roe", "555", "jane@x.com"⟩]
        ⟨0, "Jane", "Roe", "555", "jane@x.com"⟩ "Jane" "Roe" "555" "jane@x.com" "n").2 =
      [⟨0, "Jane", "Roe", "555", "jane@x.com"⟩] :=
  have h := modify_duplicate_full_store [⟨0, "Jane", "Roe", "555", "jane@x.com"⟩]
    ⟨0, "Jane", "Roe", "555", "jane@x.com"⟩ "n" (by decide)
  ⟨h.1, h.2 (by decide)⟩

/-- Claim C8: adding a record whose four candidate fields exactly equal
those of a stored record, with the override decision answered no,
leaves the store unchanged and appends nothing. -/
theorem add_duplicate_declined_unchanged (contacts : List Contact)
    (f l p e : String) (oid : Nat)
    (h : ∃ c ∈ contacts, contactFields c = (f, l, p, e)) :
    add_contact contacts (some f) (some l) (some p) (some e) ["no"] oid = some contacts := by
  obtain ⟨c, hc, hf⟩ := h
  have hfields := hf
  simp [contactFields, Prod.ext_iff] at hfields
  have hdup : is_duplicate contacts f l p e = true := by
    refine List.any_eq_true.mpr ⟨c, hc, ?_⟩
    simp [hfields.1, hfields.2.1, hfields.2.2.1, hfields.2.2.2]
  have hy : (normAns "no" == "y") = false := by decide
  simp [add_contact, resolveField, hdup, hy]
  decide

/-- Witness for claim C8 at a concrete one-record store. -/
theorem add_duplicate_declined_unchanged_witness :
    add_contact [⟨0, "John", "Doe", "1", "j@x.co"⟩] (some "John") (some "Doe") (some "1")
      (some "j@x.co") ["no"] 9 = some [⟨0, "John", "Doe", "1", "j@x.co"⟩] :=
  add_duplicate_declined_unchanged [⟨0, "John", "Doe", "1", "j@x.co"⟩] "John" "Doe" "1"
    "j@x.co" 9 ⟨⟨0, "John", "Doe", "1", "j@x.co"⟩, by decide⟩

/-- Claim C10: modify and delete act on the selected record by object
identity.  With two stored records equal in all four fields but
distinct objects, deleting the second (selected) one removes exactly
it, and modifying the second rewrites exactly its position, the other
value-equal record staying untouched. -/
theorem modify_delete_by_identity (a b : Contact) (f l p e : String)
    (hoid : a.oid ≠ b.oid) (hfields : contactFields a = contactFields b) :
    delete_apply [a, b] b "y" = [a] ∧
    (modify_apply [a, b] b f l p e "y").2 = [a, ⟨b.oid, f, l, p, e⟩] := by
  have hab : (a.oid == b.oid) = false := beq_eq_false_iff_ne.mpr hoid
  have hy : (normAns "y" == "y") = true := by decide
  constructor
  · simp [delete_apply, hy, List.eraseP_cons, hab]
  · cases hdup : is_duplicate [a, b] f l p e <;>
      simp [modify_apply, hdup, hy, List.findIdx_cons, hab, List.set]

/-- Witness for claim C10 on two field-equal records with distinct
identities. -/
theorem modify_delete_by_identity_witness :
    delete_apply [⟨0, "J", "D", "1", "j@x.co"⟩, ⟨1, "J", "D", "1", "j@x.co"⟩]
        ⟨1, "J", "D", "1", "j@x.co"⟩ "y" = [⟨0, "J", "D", "1", "j@x.co"⟩] ∧
    (modify_apply [⟨0, "J", "D", "1", "j@x.co"⟩, ⟨1, "J", "D", "1", "j@x.co"⟩]
        ⟨1, "J", "D", "1", "j@x.co"⟩ "J" "D" "77" "j@x.co" "y").2 =
      [⟨0, "J", "D", "1", "j@x.co"⟩, ⟨1, "J", "D", "77", "j@x.co"⟩] :=
  modify_delete_by_identity ⟨0, "J", "D", "1", "j@x.co"⟩ ⟨1, "J", "D", "1", "j@x.co"⟩
    "J" "D" "77" "j@x.co" (by decide) (by decide)

/-- Claim C4, counterexample: a file whose contents are the well-formed
JSON array of the single string x parses, but the comprehension raises
an uncaught TypeError when Contact(**data) is applied to the string, so
the load is fatal to the process instead of warning and initializing an
empty store. -/
theorem load_fatal_counterexample :
    load_contacts (.parsed (.arr [.str "x"])) = .fatal := by
  decide

/-- Claim C4, amended: a missing file initializes the store to the
empty sequence without error, and a file rejected by the JSON parser
initializes it to the empty sequence with a surfaced warning (the load
only reads, so the file is untouched); but a file holding well-formed
JSON that does not decode to a record sequence raises an uncaught
exception that is fatal, exactly when the item decoding fails. -/
theorem load_error_handling :
    load_contacts .missing = .ok false [] ∧
    load_contacts .corrupt = .ok true [] ∧
    (∀ v, load_contacts (.parsed v) = .fatal ↔ decodeList 0 (pyIterItems v) = none) := by
  refine ⟨rfl, rfl, fun v => ?_⟩
  cases hd : decodeList 0 (pyIterItems v) <;> simp [load_contacts, hd]

/-- Witness for the amended claim C4 at the corrupt file state. -/
theorem load_error_handling_witness :
    load_contacts .corrupt = .ok true [] :=
  load_error_handling.2.1

theorem decodeItem_encode (n : Nat) (c : Contact) :
    decodeItem n (encodeContact c) =
      some ⟨n, c.first_name, c.last_name, c.phone_number, c.email⟩ :=
  rfl

theorem decodeList_encode (contacts : List Contact) :
    ∀ n, decodeList n (contacts.map encodeContact) = some (renumber n contacts) := by
  induction contacts with
  | nil => intro n; rfl
  | cons c rest ih =>
    intro n
    simp [decodeList, decodeItem_encode, ih, renumber]

theorem renumber_fields (contacts : List Contact) :
    ∀ n, (renumber n contacts).map contactFields = contacts.map contactFields := by
  induction contacts with
  | nil => intro n; rfl
  | cons c rest ih =>
    intro n
    simp [renumber, ih, contactFields]

/-- Claim C5: saving any sequence of valid records and loading the
resulting file yields a record sequence equal field by field, in the
same order, to the saved one (the reloaded objects carry fresh
identities, which are not data). -/
theorem save_load_roundtrip (contacts : List Contact)
    (h : ∀ c ∈ contacts, is_valid_name c.first_name = true ∧ is_valid_name c.last_name = true ∧
      is_valid_phone c.phone_number = true ∧ is_valid_email c.email = true) :
    ∃ contacts', load_contacts (save_contacts contacts) = .ok false contacts' ∧
      contacts'.map contactFields = contacts.map contactFields :=
  ⟨renumber 0 contacts,
    by simp [load_contacts, save_contacts, pyIterItems, decodeList_encode],
    renumber_fields contacts 0⟩

/-- Witness for claim C5 on a concrete one-record valid store. -/
theorem save_load_roundtrip_witness :
    ∃ contacts', load_contacts (save_contacts [⟨5, "John", "Doe", "123", "j@x.co"⟩]) =
        .ok false contacts' ∧
      contacts'.map contactFields = [⟨5, "John", "Doe", "123", "j@x.co"⟩].map contactFields :=
  save_load_roundtrip [⟨5, "John", "Doe", "123", "j@x.co"⟩] (by decide)

/-- Claim C3, counterexample: a field value supplied as an argument to
add bypasses validation and is appended verbatim, and load populates
the store from the file with no validation, even though the first name
123 fails the name validator. -/
theorem add_load_validation_bypass_counterexample :
    add_contact [] (some "123") (some "Doe") (some "+1") (some "a@b.c") [] 7 =
      some [⟨7, "123", "Doe", "+1", "a@b.c"⟩] ∧
    load_contacts (.parsed (.arr [.obj [("first_name", "123"), ("last_name", "Doe"),
        ("phone_number", "+1"), ("email", "a@b.c")]])) =
      .ok false [⟨0, "123", "Doe", "+1", "a@b.c"⟩] ∧
    is_valid_name "123" = false := by
  decide

theorem get_valid_input_sound (inputs : List String) (vf : String → Bool)
    (v : String) (rest : List String)
    (h : get_valid_input inputs vf = some (v, rest)) : vf v = true := by
  induction inputs generalizing v rest with
  | nil => simp [get_valid_input] at h
  | cons i tl ih =>
    simp only [get_valid_input] at h
    split at h
    · rename_i hv
      simp only [Option.some.injEq, Prod.mk.injEq] at h
      rw [← h.1]
      exact hv
    · exact ih v rest h

/-- Claim C3, amended: the validation at admission covers only the
interactive path.  Whenever the fully-interactive add (all four
arguments absent) returns a store, every record of that store either
was already present or has all four fields passing their validators;
but field values supplied as arguments to add and records decoded by
load are admitted without any validation. -/
theorem interactive_add_validates (contacts : List Contact) (inputs : List String) (oid : Nat)
    (contacts' : List Contact)
    (h : add_contact contacts none none none none inputs oid = some contacts') :
    ∀ c ∈ contacts', c ∈ contacts ∨
      (is_valid_name c.first_name = true ∧ is_valid_name c.last_name = true ∧
        is_valid_phone c.phone_number = true ∧ is_valid_email c.email = true) := by
  simp only [add_contact, resolveField] at h
  rw [Option.bind_eq_some] at h
  obtain ⟨fr, hf, h⟩ := h
  rw [Option.bind_eq_some] at h
  obtain ⟨lr, hl, h⟩ := h
  rw [Option.bind_eq_some] at h
  obtain ⟨pr, hp, h⟩ := h
  rw [Option.bind_eq_some] at h
  obtain ⟨er, he, h⟩ := h
  have hvf : is_valid_name fr.1 = true := get_valid_input_sound _ _ _ _ hf
  have hvl : is_valid_name lr.1 = true := get_valid_input_sound _ _ _ _ hl
  have hvp : is_valid_phone pr.1 = true := get_valid_input_sound _ _ _ _ hp
  have hve : is_valid_email er.1 = true := get_valid_input_sound _ _ _ _ he
  have happend : ∀ c ∈ contacts ++ [(⟨oid, fr.1, lr.1, pr.1, er.1⟩ : Contact)],
      c ∈ contacts ∨
        (is_valid_name c.first_name = true ∧ is_valid_name c.last_name = true ∧
          is_valid_phone c.phone_number = true ∧ is_valid_email c.email = true) := by
    intro c hc
    rcases List.mem_append.mp hc with hcl | hcr
    · exact Or.inl hcl
    · rw [List.mem_singleton] at hcr
      subst hcr
      exact Or.inr ⟨hvf, hvl, hvp, hve⟩
  split at h
  · split at h
    · exact absurd h (by simp)
    · split at h
      · rw [Option.some.injEq] at h
        subst h
        exact happend
      · rw [Option.some.injEq] at h
        subst h
        exact fun c hc => Or.inl hc
  · rw [Option.some.injEq] at h
    subst h
    exact happend

/-- Witness for the amended claim C3: a fully interactive add run with
valid inputs, whose admitted record passes every validator. -/
theorem interactive_add_validates_witness :
    add_contact [] none none none none ["John", "Doe", "123", "j@x.co"] 0 =
      some [⟨0, "John", "Doe", "123", "j@x.co"⟩] ∧
    ∀ c ∈ [(⟨0, "John", "Doe", "123", "j@x.co"⟩ : Contact)], c ∈ ([] : List Contact) ∨
      (is_valid_name c.first_name = true ∧ is_valid_name c.last_name = true ∧
        is_valid_phone c.phone_number = true ∧ is_valid_email c.email = true) :=
  ⟨by decide,
    interactive_add_validates [] ["John", "Doe", "123", "j@x.co"] 0 _ (by decide)⟩

/-- Claim C7: in the modify field assembly each field is independently
updated or kept: blank inputs for every field keep the record as it
was, and a valid non-blank phone with blanks elsewhere changes only the
phone field. -/
theorem modify_fields_update_or_keep (sel : Contact) (p : String)
    (h1 : pyStrip p = p) (h2 : p ≠ "") (h3 : is_valid_phone p = true) :
    modify_new_fields sel ["", "", p, ""] =
      some (⟨sel.oid, sel.first_name, sel.last_name, p, sel.email⟩, []) ∧
    modify_new_fields sel ["", "", "", ""] =
      some (⟨sel.oid, sel.first_name, sel.last_name, sel.phone_number, sel.email⟩, []) := by
  have hne : (p == "") = false := beq_eq_false_iff_ne.mpr h2
  have h0 : pyStrip "" = "" := rfl
  constructor
  · simp [modify_new_fields, get_new_value, h0, h1, hne, h3]
  · rfl

/-- Witness for claim C7: updating only the phone of a concrete record
preserves its other fields. -/
theorem modify_fields_update_or_keep_witness :
    modify_new_fields ⟨0, "John", "Doe", "123", "j@x.co"⟩ ["", "", "77", ""] =
      some (⟨0, "John", "Doe", "77", "j@x.co"⟩, []) :=
  (modify_fields_update_or_keep ⟨0, "John", "Doe", "123", "j@x.co"⟩ "77"
    (by decide) (by decide) (by decide)).1

/-- Claim C9: a one-element result set is selected automatically with
the input stream unread; an empty result set yields nothing-to-select;
on a multi-element result set a parsed 1-based index within range
selects that element, and a non-numeric or out-of-range input is
discarded and the loop continues on the remaining inputs, never
clamping or defaulting. -/
theorem select_from_results_spec :
    (∀ (c : Contact) (inputs : List String),
        select_from_search [c] inputs = .selected c) ∧
    (∀ inputs : List String, select_from_search [] inputs = .nothingToSelect) ∧
    (∀ (results : List Contact) (i : String) (inputs : List String) (k : Int) (c : Contact),
        1 < results.length → pyParseInt i = some k → 1 ≤ k →
        results.get? (k - 1).toNat = some c →
        select_from_search results (i :: inputs) = .selected c) ∧
    (∀ (results : List Contact) (i : String) (inputs : List String),
        1 < results.length →
        (pyParseInt i = none ∨
          ∃ k : Int, pyParseInt i = some k ∧ (k < 1 ∨ (results.length : Int) < k)) →
        select_from_search results (i :: inputs) = select_from_search results inputs) := by
  refine ⟨fun c inputs => rfl, fun inputs => rfl, ?_, ?_⟩
  · intro results i inputs k c hlen hparse hk hget
    cases results with
    | nil => simp at hlen
    | cons a tl =>
      cases tl with
      | nil => simp at hlen
      | cons b t =>
        show select_loop (a :: b :: t) (i :: inputs) = .selected c
        simp only [select_loop, hparse]
        rw [if_pos (by omega : (0 : Int) ≤ k - 1)]
        rw [hget]
  · intro results i inputs hlen hrej
    cases results with
    | nil => simp at hlen
    | cons a tl =>
      cases tl with
      | nil => simp at hlen
      | cons b t =>
        show select_loop (a :: b :: t) (i :: inputs) = select_loop (a :: b :: t) inputs
        rcases hrej with hnone | ⟨k, hsome, hout⟩
        · simp only [select_loop, hnone]
        · simp only [select_loop, hsome]
          rcases hout with hlt | hgt
          · rw [if_neg (by omega : ¬ (0 : Int) ≤ k - 1)]
          · have hnn : (0 : Int) ≤ ((a :: b :: t).length : Int) := Int.ofNat_nonneg _
            rw [if_pos (by omega : (0 : Int) ≤ k - 1)]
            have hnone' : (a :: b :: t).get? (k - 1).toNat = none := by
              apply List.get?_eq_none.mpr
              omega
            rw [hnone']

/-- Witness for claim C9: automatic single selection, empty signalling,
in-range index selection, and rejection of an out-of-range index on
concrete result sets. -/
theorem select_from_results_spec_witness :
    select_from_search [⟨0, "A", "A", "1", "a@a.a"⟩] ["x"] =
      .selected ⟨0, "A", "A", "1", "a@a.a"⟩ ∧
    select_from_search [] ["x"] = .nothingToSelect ∧
    select_from_search [⟨0, "A", "A", "1", "a@a.a"⟩, ⟨1, "C", "C", "2", "c@c.c"⟩] ["2"] =
      .selected ⟨1, "C", "C", "2", "c@c.c"⟩ ∧
    select_from_search [⟨0, "A", "A", "1", "a@a.a"⟩, ⟨1, "C", "C", "2", "c@c.c"⟩] ["0", "2"] =
      select_from_search [⟨0, "A", "A", "1", "a@a.a"⟩, ⟨1, "C", "C", "2", "c@c.c"⟩] ["2"] :=
  ⟨select_from_results_spec.1 _ _, select_from_results_spec.2.1 _,
    select_from_results_spec.2.2.1 _ "2" [] 2 _ (by decide) (by decide) (by decide) (by decide),
    select_from_results_spec.2.2.2 _ "0" ["2"] (by decide)
      (Or.inr ⟨0, by decide, Or.inl (by decide)⟩)⟩
